import Mathlib

/-!
Shallow embedding of the pricing / discount / promotion / kit core of the
`ricambi-manager` warehouse application (Go sources: `internal/domain/article.go`,
`internal/domain/customer.go`, `internal/domain/promotion.go`, `internal/domain/kit.go`,
`internal/usecase/manage_discounts.go`).

Modelling conventions:
* Go `float64` is modelled as `ℚ` (exact arithmetic; all claim-relevant
  computations are products, sums and divisions of small decimal values).
  One boundary of this model: `x / 0` is `0` in `ℚ` but `±Inf`/`NaN` in Go
  float, so theorems about quotients (kit availability ratios) carry a
  strict-positivity hypothesis on the divisor, keeping their quantified
  region inside the part of the model that agrees with the program.
* Go `time.Time` is modelled as `Int` (an instant on a linear time line);
  the Go zero time is the integer `0`, so `t.IsZero()` becomes `t = 0`,
  `a.Before(b)` becomes `a < b` and `a.After(b)` becomes `b < a`.
  Functions that call `time.Now()` internally take `now : Int` as an argument.
* Go `primitive.ObjectID` is modelled as `Nat`; `ObjectID.Hex()` is injective,
  so the `map[string]int` usage map keyed by `customer.ID.Hex()` is modelled as
  an association list keyed by the customer id itself.
* Go maps are modelled as association lists with a lookup function.
* A Go runtime panic (integer division by zero in `CalculateDiscount` for an
  `nxm` promotion with `BuyQuantity == 0`) is modelled by an `Option` result:
  `none` is the panic.
* The promotion repository (`PromotionRepository.FindActive`, an external
  MongoDB query) is modelled by passing its result as an
  `Except String (List Promotion)` argument.
-/

/-- `internal/domain/article.go`: `NetPrice` (fields used by `GetNetPrice`). -/
structure NetPrice where
  CustomerID : Nat
  Price : ℚ
  ValidFrom : Int
  ValidTo : Int
  deriving DecidableEq

/-- `internal/domain/article.go`: `StockInfo` (fields used by the kit logic). -/
structure StockInfo where
  Quantity : ℚ
  Reserved : ℚ
  Available : ℚ
  deriving DecidableEq

/-- `internal/domain/article.go`: `PricingInfo` (fields used by pricing). -/
structure PricingInfo where
  ListPrice : ℚ
  NetPrices : List NetPrice
  deriving DecidableEq

/-- `internal/domain/article.go`: `Article` (fields read by the pricing and kit
functions under verification). -/
structure Article where
  ID : Nat
  Code : String
  Precodice : String
  Family : String
  Classification : List String
  Category : String
  Stock : StockInfo
  Pricing : PricingInfo
  deriving DecidableEq

/-- `internal/domain/customer.go`: `DiscountRule`. -/
structure DiscountRule where
  ID : Nat
  Priority : Int
  Precodice : String
  Family : String
  Classification : String
  ArticleCode : String
  DiscountPercent : ℚ
  DiscountCascade : List ℚ
  ValidFrom : Int
  ValidTo : Int
  MinQuantity : ℚ
  IsActive : Bool
  deriving DecidableEq

/-- `internal/domain/customer.go`: `Customer` (fields read by pricing). -/
structure Customer where
  ID : Nat
  Category : String
  DiscountGrid : List DiscountRule
  deriving DecidableEq

/-- `internal/domain/promotion.go`: `PromotionRules`. -/
structure PromotionRules where
  DiscountPercent : ℚ
  FixedPrice : ℚ
  BuyQuantity : Int
  GetQuantity : Int
  deriving DecidableEq

/-- `internal/domain/promotion.go`: `ApplicabilityRules`. -/
structure ApplicabilityRules where
  ArticleCodes : List String
  Precodici : List String
  Families : List String
  Classifications : List String
  Categories : List String
  CustomerCategories : List String
  SpecificCustomers : List Nat
  ExcludedArticles : List String
  deriving DecidableEq

/-- `internal/domain/promotion.go`: `PromotionConditions` (numeric conditions). -/
structure PromotionConditions where
  MinQuantity : ℚ
  MaxQuantity : ℚ
  MinAmount : ℚ
  MaxAmount : ℚ
  deriving DecidableEq

/-- `internal/domain/promotion.go`: `PromotionLimits`. -/
structure PromotionLimits where
  MaxUsageTotal : Int
  MaxUsagePerCustomer : Int
  MaxUsagePerDay : Int
  deriving DecidableEq

/-- `internal/domain/promotion.go`: `PromotionStats`.  `CustomerUsages` is a Go
`map[string]int` keyed by `ObjectID.Hex()`, modelled as an association list
keyed by the customer id. -/
structure PromotionStats where
  TotalUsages : Int
  UsagesToday : Int
  LastUsageDate : Int
  CustomerUsages : List (Nat × Int)
  TotalRevenue : ℚ
  TotalDiscount : ℚ
  deriving DecidableEq

/-- `internal/domain/promotion.go`: `Promotion`.  The Go field `Type` is a
string (`PromotionType`); it is named `PType` here because `Type` is reserved
in Lean. -/
structure Promotion where
  ID : Nat
  Code : String
  PType : String
  IsActive : Bool
  ValidFrom : Int
  ValidTo : Int
  Priority : Int
  Rules : PromotionRules
  Applicability : ApplicabilityRules
  Conditions : PromotionConditions
  Limits : PromotionLimits
  Statistics : PromotionStats
  UpdatedAt : Int
  deriving DecidableEq

/-- `internal/domain/kit.go` / `article.go`: `KitComponent`. -/
structure KitComponent where
  ArticleID : Nat
  ArticleCode : String
  Quantity : ℚ
  deriving DecidableEq

/-- `internal/domain/kit.go`: `Kit` (fields read by availability/fulfilment). -/
structure Kit where
  Code : String
  Components : List KitComponent
  deriving DecidableEq

/-- `internal/usecase/manage_discounts.go`: `DiscountCalculation`. -/
structure DiscountCalculation where
  BasePrice : ℚ
  CustomerDiscount : ℚ
  PromotionDiscount : ℚ
  NetPrice : ℚ
  FinalPrice : ℚ
  TotalDiscount : ℚ
  DiscountPercent : ℚ
  AppliedRule : Option DiscountRule
  AppliedPromotion : Option Promotion
  deriving DecidableEq

/-- Lookup in an association list modelling a Go `map[ObjectID]*Article`. -/
def mapLookup : List (Nat × Article) → Nat → Option Article
  | [], _ => none
  | kv :: rest, k => if kv.1 = k then some kv.2 else mapLookup rest k

/-- Lookup in the association list modelling `Statistics.CustomerUsages`
(`usage, exists := m[customerID]`). -/
def usagesLookup : List (Nat × Int) → Nat → Option Int
  | [], _ => none
  | kv :: rest, k => if kv.1 = k then some kv.2 else usagesLookup rest k

/-- Go map read with default zero value (`m[customerID]` on the right-hand side
of `m[customerID]++`). -/
def usagesLookupD (m : List (Nat × Int)) (k : Nat) : Int :=
  (usagesLookup m k).getD 0

/-- Go `p.Statistics.CustomerUsages[customerID]++`: increment the entry,
inserting `1` when the key is absent. -/
def usagesIncr : List (Nat × Int) → Nat → List (Nat × Int)
  | [], k => [(k, 1)]
  | kv :: rest, k =>
      if kv.1 = k then (kv.1, kv.2 + 1) :: rest else kv :: usagesIncr rest k

/-- Go `int64(val)` / `int(val)` conversion of a float: truncation toward zero.
On `ℚ` this is T-division of the numerator by the denominator. -/
def ratTrunc (q : ℚ) : ℤ :=
  Int.tdiv q.num (q.den : ℤ)

/-- `article.go` `GetNetPrice` loop body: the first net price whose customer id
matches and whose validity window contains `now`
(`now.After(np.ValidFrom) && (np.ValidTo.IsZero() || now.Before(np.ValidTo))`). -/
def getNetPriceLoop (now : Int) (customerID : Nat) : List NetPrice → Option NetPrice
  | [] => none
  | np :: rest =>
      if np.CustomerID = customerID ∧ np.ValidFrom < now ∧
          (np.ValidTo = 0 ∨ now < np.ValidTo) then
        some np
      else getNetPriceLoop now customerID rest

/-- `internal/domain/article.go`: `Article.GetNetPrice` (the internal
`time.Now()` is the `now` argument). -/
def Article.GetNetPrice (a : Article) (now : Int) (customerID : Nat) : Option NetPrice :=
  getNetPriceLoop now customerID a.Pricing.NetPrices

/-- `internal/domain/customer.go` `GetApplicableDiscount`, lines 274-289: the
`matches` flag for one rule — a chain of `if/else if` over the rule's match
keys.  Note the first condition is the conjunction
`rule.ArticleCode != "" && rule.ArticleCode == article.Code`; when it is false
(including the case of a non-empty, mismatched `ArticleCode`) control falls
through to the `Precodice` branch. -/
def ruleMatches (rule : DiscountRule) (article : Article) : Bool :=
  if rule.ArticleCode ≠ "" ∧ rule.ArticleCode = article.Code then true
  else if rule.Precodice ≠ "" ∧ rule.Precodice = article.Precodice then true
  else if rule.Family ≠ "" ∧ rule.Family = article.Family then true
  else if rule.Classification ≠ "" then
    decide (rule.Classification ∈ article.Classification)
  else false

/-- `customer.go` `GetApplicableDiscount` loop: filter by activity, validity
window and minimum quantity, then keep the matching rule with the strictly
highest priority (first seen wins ties). -/
def getApplicableDiscountLoop (now : Int) (article : Article) (quantity : ℚ) :
    Option DiscountRule → List DiscountRule → Option DiscountRule
  | best, [] => best
  | best, rule :: rest =>
      let best' :=
        if ¬ rule.IsActive then best
        else if rule.ValidFrom ≠ 0 ∧ now < rule.ValidFrom then best
        else if rule.ValidTo ≠ 0 ∧ rule.ValidTo < now then best
        else if 0 < rule.MinQuantity ∧ quantity < rule.MinQuantity then best
        else if ruleMatches rule article then
          match best with
          | none => some rule
          | some b => if b.Priority < rule.Priority then some rule else some b
        else best
      getApplicableDiscountLoop now article quantity best' rest

/-- `internal/domain/customer.go`: `Customer.GetApplicableDiscount` (the
internal `time.Now()` is the `now` argument). -/
def Customer.GetApplicableDiscount (c : Customer) (now : Int) (article : Article)
    (quantity : ℚ) : Option DiscountRule :=
  getApplicableDiscountLoop now article quantity none c.DiscountGrid

/-- `internal/domain/customer.go`, lines 301-318: `Customer.CalculateFinalPrice`
— the domain-level price application, which (unlike the use case) applies a
non-empty `DiscountCascade` sequentially, `price *= (1 - p/100)` per step. -/
def Customer.CalculateFinalPrice (c : Customer) (now : Int) (article : Article)
    (quantity basePrice : ℚ) : ℚ :=
  match c.GetApplicableDiscount now article quantity with
  | none => basePrice
  | some rule =>
      if rule.DiscountCascade ≠ [] then
        rule.DiscountCascade.foldl (fun price discount => price * (1 - discount / 100)) basePrice
      else basePrice * (1 - rule.DiscountPercent / 100)

/-- `internal/domain/promotion.go`, lines 202-263: `Promotion.IsApplicableToArticle`.
Excluded codes first (short-circuit false); then each applicability list, when
non-empty, decides membership exclusively; when every list is empty the final
`return` statement evaluates the conjunction of the five emptiness tests. -/
def Promotion.IsApplicableToArticle (p : Promotion) (article : Article) : Bool :=
  if p.Applicability.ExcludedArticles ≠ [] ∧
      article.Code ∈ p.Applicability.ExcludedArticles then false
  else if p.Applicability.ArticleCodes ≠ [] then
    decide (article.Code ∈ p.Applicability.ArticleCodes)
  else if p.Applicability.Precodici ≠ [] then
    decide (article.Precodice ∈ p.Applicability.Precodici)
  else if p.Applicability.Families ≠ [] then
    decide (article.Family ∈ p.Applicability.Families)
  else if p.Applicability.Classifications ≠ [] then
    decide (∃ c ∈ p.Applicability.Classifications, c ∈ article.Classification)
  else if p.Applicability.Categories ≠ [] then
    decide (article.Category ∈ p.Applicability.Categories)
  else
    decide (p.Applicability.ArticleCodes = [] ∧ p.Applicability.Precodici = [] ∧
      p.Applicability.Families = [] ∧ p.Applicability.Classifications = [] ∧
      p.Applicability.Categories = [])

/-- `promotion.go`: `Promotion.IsApplicableToCustomer`: the specific-customer
list, when non-empty, is authoritative; else the category list; else true. -/
def Promotion.IsApplicableToCustomer (p : Promotion) (customer : Customer) : Bool :=
  if p.Applicability.SpecificCustomers ≠ [] then
    decide (customer.ID ∈ p.Applicability.SpecificCustomers)
  else if p.Applicability.CustomerCategories ≠ [] then
    decide (customer.Category ∈ p.Applicability.CustomerCategories)
  else true

/-- `promotion.go` `CanBeUsed`, per-customer usage cap check (nested
`if usage, exists := ...; exists` lookup). -/
def Promotion.customerUsageLimitHit (p : Promotion) (customerID : Nat) : Bool :=
  if 0 < p.Limits.MaxUsagePerCustomer then
    match usagesLookup p.Statistics.CustomerUsages customerID with
    | some usage => decide (p.Limits.MaxUsagePerCustomer ≤ usage)
    | none => false
  else false

/-- `internal/domain/promotion.go`, lines 287-321: `Promotion.CanBeUsed`.
Independent checks; the first failing check returns its reason string. -/
def Promotion.CanBeUsed (p : Promotion) (customerID : Nat) (quantity amount : ℚ) :
    Bool × String :=
  if 0 < p.Limits.MaxUsageTotal ∧ p.Limits.MaxUsageTotal ≤ p.Statistics.TotalUsages then
    (false, "promotion usage limit reached")
  else if p.customerUsageLimitHit customerID then
    (false, "customer usage limit reached")
  else if 0 < p.Limits.MaxUsagePerDay ∧ p.Limits.MaxUsagePerDay ≤ p.Statistics.UsagesToday then
    (false, "daily usage limit reached")
  else if 0 < p.Conditions.MinQuantity ∧ quantity < p.Conditions.MinQuantity then
    (false, "minimum quantity not met")
  else if 0 < p.Conditions.MaxQuantity ∧ p.Conditions.MaxQuantity < quantity then
    (false, "maximum quantity exceeded")
  else if 0 < p.Conditions.MinAmount ∧ amount < p.Conditions.MinAmount then
    (false, "minimum amount not met")
  else if 0 < p.Conditions.MaxAmount ∧ p.Conditions.MaxAmount < amount then
    (false, "maximum amount exceeded")
  else (true, "")

/-- `internal/domain/promotion.go`, lines 323-341: `Promotion.CalculateDiscount`.
`none` models the Go runtime panic of `int(quantity) / p.Rules.BuyQuantity`
when `BuyQuantity == 0`; `Int.div` is Go's truncating integer division. -/
def Promotion.CalculateDiscount (p : Promotion) (basePrice quantity : ℚ) : Option ℚ :=
  if p.PType = "percent_discount" then
    some (basePrice * quantity * (p.Rules.DiscountPercent / 100))
  else if p.PType = "fixed_price" then
    some (basePrice * quantity - p.Rules.FixedPrice * quantity)
  else if p.PType = "nxm" then
    if p.Rules.BuyQuantity = 0 then none
    else
      let sets := Int.tdiv (ratTrunc quantity) p.Rules.BuyQuantity
      let freeItems := sets * p.Rules.GetQuantity
      some (basePrice * (freeItems : ℚ))
  else some 0

/-- `internal/domain/promotion.go`, lines 343-356: `Promotion.RecordUsage`
(the internal `time.Now()` is the `now` argument). -/
def Promotion.RecordUsage (p : Promotion) (now : Int) (customerID : Nat)
    (revenue discount : ℚ) : Promotion :=
  { p with
    Statistics := { p.Statistics with
      TotalUsages := p.Statistics.TotalUsages + 1
      UsagesToday := p.Statistics.UsagesToday + 1
      LastUsageDate := now
      TotalRevenue := p.Statistics.TotalRevenue + revenue
      TotalDiscount := p.Statistics.TotalDiscount + discount
      CustomerUsages := usagesIncr p.Statistics.CustomerUsages customerID }
    UpdatedAt := now }

/-- `internal/domain/promotion.go`, lines 358-361: `Promotion.ResetDailyUsage`. -/
def Promotion.ResetDailyUsage (p : Promotion) (now : Int) : Promotion :=
  { p with
    Statistics := { p.Statistics with UsagesToday := 0 }
    UpdatedAt := now }

/-- `manage_discounts.go` `CalculateFinalPrice`, step 1 (lines 52-60): base
price is the article list price unless a currently valid net price override
exists for the customer; returns `(calc.NetPrice, calc.BasePrice)`. -/
def usecaseBasePrice (now : Int) (customer : Customer) (article : Article) : ℚ × ℚ :=
  match article.GetNetPrice now customer.ID with
  | some np => (np.Price, np.Price)
  | none => (0, article.Pricing.ListPrice)

/-- `manage_discounts.go` `CalculateFinalPrice`, loop body (lines 70-88): one
iteration of the best-promotion scan.  `none` propagates the modelled panic of
`Promotion.CalculateDiscount`. -/
def bestPromotionStep (customer : Customer) (article : Article) (quantity basePrice : ℚ)
    (acc : Option Promotion × ℚ) (promo : Promotion) : Option (Option Promotion × ℚ) :=
  if ¬ promo.IsApplicableToArticle article then some acc
  else if ¬ promo.IsApplicableToCustomer customer then some acc
  else if ¬ (promo.CanBeUsed customer.ID quantity (basePrice * quantity)).1 then some acc
  else
    match promo.CalculateDiscount basePrice quantity with
    | none => none
    | some discount =>
        some (if acc.2 < discount then (some promo, discount) else acc)

/-- `manage_discounts.go` `CalculateFinalPrice`, lines 67-88: the scan over the
active promotions, starting from `(nil, 0.0)`. -/
def usecaseBestPromotion (customer : Customer) (article : Article)
    (quantity basePrice : ℚ) : (Option Promotion × ℚ) → List Promotion →
    Option (Option Promotion × ℚ)
  | acc, [] => some acc
  | acc, promo :: rest =>
      match bestPromotionStep customer article quantity basePrice acc promo with
      | none => none
      | some acc' => usecaseBestPromotion customer article quantity basePrice acc' rest

/-- `manage_discounts.go` `CalculateFinalPrice`, lines 90-94: the applied rule
and the customer discount amount `calc.BasePrice * (discountRule.DiscountPercent / 100)`
(the rule's `DiscountCascade` is not consulted here). -/
def usecaseCustomerDiscountPair (now : Int) (customer : Customer) (article : Article)
    (quantity basePrice : ℚ) : Option DiscountRule × ℚ :=
  match customer.GetApplicableDiscount now article quantity with
  | some rule => (some rule, basePrice * (rule.DiscountPercent / 100))
  | none => (none, 0)

/-- `manage_discounts.go` `CalculateFinalPrice`, lines 96-99: the applied
promotion and the per-unit promotion discount `bestPromotionDiscount / quantity`. -/
def usecasePromotionPair (best : Option Promotion × ℚ) (quantity : ℚ) :
    Option Promotion × ℚ :=
  match best.1 with
  | some bp => (some bp, best.2 / quantity)
  | none => (none, 0)

/-- `manage_discounts.go` `CalculateFinalPrice`, lines 101-109: the mutual
exclusion block.  Both discounts survive unless both are strictly positive
(`calc.CustomerDiscount > 0 && calc.PromotionDiscount > 0`); the promotion
wins only when strictly larger, otherwise the promotion is zeroed and its
reference cleared. -/
def applyMutualExclusion (cd : Option DiscountRule × ℚ) (pd : Option Promotion × ℚ) :
    (Option DiscountRule × ℚ) × (Option Promotion × ℚ) :=
  if 0 < cd.2 ∧ 0 < pd.2 then
    if cd.2 < pd.2 then ((none, 0), pd) else (cd, (none, 0))
  else (cd, pd)

/-- `manage_discounts.go` `CalculateFinalPrice`, lines 90-118: everything after
the promotion scan — customer discount, per-unit promotion discount, mutual
exclusion, and the derived final fields. -/
def usecaseFinishCalc (now : Int) (customer : Customer) (article : Article)
    (quantity : ℚ) (netBase : ℚ × ℚ) (best : Option Promotion × ℚ) :
    DiscountCalculation :=
  let cd := usecaseCustomerDiscountPair now customer article quantity netBase.2
  let pd := usecasePromotionPair best quantity
  let ex := applyMutualExclusion cd pd
  { BasePrice := netBase.2
    CustomerDiscount := ex.1.2
    PromotionDiscount := ex.2.2
    NetPrice := netBase.1
    FinalPrice := netBase.2 - ex.1.2 - ex.2.2
    TotalDiscount := ex.1.2 + ex.2.2
    DiscountPercent := if 0 < netBase.2 then (ex.1.2 + ex.2.2) / netBase.2 * 100 else 0
    AppliedRule := ex.1.1
    AppliedPromotion := ex.2.1 }

/-- `internal/usecase/manage_discounts.go`, lines 46-119:
`ManageDiscountsUseCase.CalculateFinalPrice`.  The repository read
`promotionRepo.FindActive(ctx, time.Now())` is external and is passed in as an
`Except` value; its error is propagated unchanged.  The inner `Option` is
`none` exactly when the computation would panic in Go (an `nxm` promotion with
`BuyQuantity == 0` reaching `CalculateDiscount`). -/
def usecaseCalculateFinalPrice (now : Int) (customer : Customer) (article : Article)
    (quantity : ℚ) (promosResult : Except String (List Promotion)) :
    Except String (Option DiscountCalculation) :=
  match promosResult with
  | Except.error e => Except.error e
  | Except.ok activePromotions =>
      let netBase := usecaseBasePrice now customer article
      match usecaseBestPromotion customer article quantity netBase.2 (none, 0)
          activePromotions with
      | none => Except.ok none
      | some best =>
          Except.ok (some (usecaseFinishCalc now customer article quantity netBase best))

/-- State-passing rendering of the use-case pricing call.  The Go body of
`CalculateFinalPrice` contains no assignment through the `customer`, `article`
or promotion pointers (every write targets the local `calc`), so the post-state
of each snapshot is the value that was passed in. -/
def usecaseCalculateFinalPriceWithState (now : Int) (customer : Customer)
    (article : Article) (quantity : ℚ) (promosResult : Except String (List Promotion)) :
    Except String (Option DiscountCalculation) ×
      Customer × Article × Except String (List Promotion) :=
  (usecaseCalculateFinalPrice now customer article quantity promosResult,
   customer, article, promosResult)

/-- `kit.go` `formatFloat` helper `string(rune(n))`: a one-character string
holding the code point `n`, or the replacement character U+FFFD when `n` is
not a valid code point (Go's conversion rule). -/
def goRuneString (n : Int) : String :=
  if 0 ≤ n ∧ (n < 55296 ∨ 57344 ≤ n) ∧ n ≤ 1114111 then
    String.mk [Char.ofNat n.toNat]
  else String.mk [Char.ofNat 65533]

/-- `internal/domain/kit.go`, lines 225-230: `formatFloat`. -/
def formatFloat (val : ℚ) : String :=
  if val = ((ratTrunc val : ℤ) : ℚ) then goRuneString (ratTrunc val)
  else goRuneString (ratTrunc (val * 100)) ++ "/100"

/-- `kit.go` `CalculateAvailability` loop (lines 175-194): early return `0` on
a missing component article or non-positive availability, otherwise track the
running minimum of `article.Stock.Available / comp.Quantity` starting from the
sentinel `-1`; the final negative-sentinel clamp (lines 196-198) is the `[]`
case. -/
def calculateAvailabilityLoop (articles : List (Nat × Article)) :
    List KitComponent → ℚ → ℚ
  | [], minAvailable => if minAvailable < 0 then 0 else minAvailable
  | comp :: rest, minAvailable =>
      match mapLookup articles comp.ArticleID with
      | none => 0
      | some article =>
          if article.Stock.Available ≤ 0 then 0
          else
            let availableKits := article.Stock.Available / comp.Quantity
            if minAvailable < 0 ∨ availableKits < minAvailable then
              calculateAvailabilityLoop articles rest availableKits
            else
              calculateAvailabilityLoop articles rest minAvailable

/-- `internal/domain/kit.go`, lines 169-203: `Kit.CalculateAvailability`
(return value; the write to the `AvailableQuantity` cache field is the same
value). -/
def Kit.CalculateAvailability (k : Kit) (articles : List (Nat × Article)) : ℚ :=
  if k.Components.isEmpty then 0
  else calculateAvailabilityLoop articles k.Components (-1)

/-- `kit.go` `CanFulfill` loop (lines 208-220): collect a shortage string for
every component that is missing from the snapshot or under-stocked. -/
def canFulfillLoop (quantity : ℚ) (articles : List (Nat × Article)) :
    List KitComponent → List String
  | [] => []
  | comp :: rest =>
      match mapLookup articles comp.ArticleID with
      | none => (comp.ArticleCode ++ " (not found)") :: canFulfillLoop quantity articles rest
      | some article =>
          if article.Stock.Available < comp.Quantity * quantity then
            (comp.ArticleCode ++ " (need " ++ formatFloat (comp.Quantity * quantity) ++
                ", have " ++ formatFloat article.Stock.Available ++ ")") ::
              canFulfillLoop quantity articles rest
          else canFulfillLoop quantity articles rest

/-- `internal/domain/kit.go`, lines 205-223: `Kit.CanFulfill`. -/
def Kit.CanFulfill (k : Kit) (quantity : ℚ) (articles : List (Nat × Article)) :
    Bool × List String :=
  let unavailableComponents := canFulfillLoop quantity articles k.Components
  (unavailableComponents.isEmpty, unavailableComponents)

/-! ### Concrete fixtures used by counterexamples and witnesses -/

/-- Empty usage statistics (all counters zero). -/
def statsBase : PromotionStats := ⟨0, 0, 0, [], 0, 0⟩

/-- A percent-discount promotion with no applicability filters, no numeric
conditions and no usage limits: applicable to every article and customer. -/
def promoBase : Promotion :=
  { ID := 5, Code := "PROMO", PType := "percent_discount", IsActive := true,
    ValidFrom := 0, ValidTo := 0, Priority := 0,
    Rules := ⟨0, 0, 0, 0⟩,
    Applicability := ⟨[], [], [], [], [], [], [], []⟩,
    Conditions := ⟨0, 0, 0, 0⟩, Limits := ⟨0, 0, 0⟩,
    Statistics := statsBase, UpdatedAt := 0 }

/-- An article with code `A1`, list price 100 and no net prices. -/
def artBase : Article :=
  { ID := 7, Code := "A1", Precodice := "", Family := "", Classification := [],
    Category := "", Stock := ⟨0, 0, 0⟩,
    Pricing := { ListPrice := 100, NetPrices := [] } }

/-- An always-valid 10% discount rule keyed to article code `A1`. -/
def ruleBase : DiscountRule :=
  { ID := 1, Priority := 0, Precodice := "", Family := "", Classification := "",
    ArticleCode := "A1", DiscountPercent := 10, DiscountCascade := [],
    ValidFrom := 0, ValidTo := 0, MinQuantity := 0, IsActive := true }

/-- A retail customer with an empty discount grid. -/
def custBase : Customer := { ID := 1, Category := "retail", DiscountGrid := [] }

/-- A discount rule whose computed amount is negative (`DiscountPercent = -10`;
representable in the stored grid, which is not re-validated by the pricing
path). -/
def ruleC1 : DiscountRule := { ruleBase with DiscountPercent := -10 }

/-- Customer holding only `ruleC1`. -/
def custC1 : Customer := { custBase with DiscountGrid := [ruleC1] }

/-- A 10% percent-discount promotion. -/
def promoC1 : Promotion :=
  { promoBase with Rules := { promoBase.Rules with DiscountPercent := 10 } }

/-- A rule carrying a 50% cascade and a zero `DiscountPercent`. -/
def ruleC2 : DiscountRule :=
  { ruleBase with DiscountPercent := 0, DiscountCascade := [50] }

/-- Customer holding only `ruleC2`. -/
def custC2 : Customer := { custBase with DiscountGrid := [ruleC2] }

/-- A 1% percent-discount promotion. -/
def promoC2 : Promotion :=
  { promoBase with Rules := { promoBase.Rules with DiscountPercent := 1 } }

/-- A rule with a non-empty `ArticleCode` (`"X"`) and `Precodice` `"P"`. -/
def ruleC3 : DiscountRule := { ruleBase with ArticleCode := "X", Precodice := "P" }

/-- Customer holding only `ruleC3`. -/
def custC3 : Customer := { custBase with DiscountGrid := [ruleC3] }

/-- An article whose code (`"Y"`) differs from `ruleC3.ArticleCode` but whose
precodice (`"P"`) matches it. -/
def artC3 : Article := { artBase with Code := "Y", Precodice := "P" }

/-- An `nxm` promotion with `BuyQuantity = 0` (rejected by `Validate`, but the
pricing path never validates the promotions it reads). -/
def promoC5 : Promotion :=
  { promoBase with
    PType := "nxm",
    Rules := { promoBase.Rules with BuyQuantity := 0, GetQuantity := 1 } }

/-- A bundle-type promotion with no applicability filters. -/
def promoC8 : Promotion := { promoBase with PType := "bundle" }

/-- A rule whose computed amount is `-100` on base price 100. -/
def ruleC10 : DiscountRule := { ruleBase with DiscountPercent := -100 }

/-- Customer holding only `ruleC10`. -/
def custC10 : Customer := { custBase with DiscountGrid := [ruleC10] }

/-- A fixed-price promotion with `FixedPrice = 200`: at base price 100 and
quantity `-1` its total discount is `+100` but its per-unit discount is `-100`. -/
def promoC10 : Promotion :=
  { promoBase with
    PType := "fixed_price",
    Rules := { promoBase.Rules with FixedPrice := 200 } }

/-- A 10% promotion used for the positive-tie scenario. -/
def promoTie : Promotion :=
  { promoBase with Rules := { promoBase.Rules with DiscountPercent := 10 } }

/-- Customer holding the 10% rule `ruleBase`. -/
def custTie : Customer := { custBase with DiscountGrid := [ruleBase] }

/-- Component article A: available stock 10. -/
def artKA : Article := { artBase with ID := 11, Code := "KA", Stock := ⟨10, 0, 10⟩ }

/-- Component article B: available stock 9. -/
def artKB : Article := { artBase with ID := 12, Code := "KB", Stock := ⟨9, 0, 9⟩ }

/-- Snapshot map holding articles A and B. -/
def snapshotAB : List (Nat × Article) := [(11, artKA), (12, artKB)]

/-- Kit with components A (2 per kit) and B (3 per kit). -/
def kitAB : Kit := { Code := "KIT1", Components := [⟨11, "KA", 2⟩, ⟨12, "KB", 3⟩] }

/-- Component article with available stock 5. -/
def artN1 : Article := { artBase with ID := 21, Code := "N1", Stock := ⟨5, 0, 5⟩ }

/-- Component article with available stock 3. -/
def artN2 : Article := { artBase with ID := 22, Code := "N2", Stock := ⟨3, 0, 3⟩ }

/-- Snapshot map holding the two articles above. -/
def snapshotNeg : List (Nat × Article) := [(21, artN1), (22, artN2)]

/-- Kit whose first component has a negative quantity-per-kit (`-1`),
representable in stored kit data (only `AddComponent` validates positivity). -/
def kitNeg : Kit := { Code := "KITN", Components := [⟨21, "N1", -1⟩, ⟨22, "N2", 1⟩] }

/-- Kit used to exercise multiple simultaneous shortages. -/
def kitShort : Kit :=
  { Code := "KITS", Components := [⟨11, "KA", 2⟩, ⟨99, "KX", 1⟩, ⟨12, "KB", 3⟩] }

/-! ### Specification-side definitions (for refinement-style claims) -/

/-- Modelled from the spec's words for `IsApplicableToArticle` (spec §4.2): the
excluded-codes list is checked first and short-circuits to false; then the five
applicability lists are consulted in order and the first non-empty list alone
decides membership (no fallthrough); if all lists are empty the promotion is
universally applicable.  To be compared with `Promotion.IsApplicableToArticle`
as translated from the source. -/
def specApplicableToArticle (p : Promotion) (article : Article) : Bool :=
  if article.Code ∈ p.Applicability.ExcludedArticles then false
  else if p.Applicability.ArticleCodes ≠ [] then
    decide (article.Code ∈ p.Applicability.ArticleCodes)
  else if p.Applicability.Precodici ≠ [] then
    decide (article.Precodice ∈ p.Applicability.Precodici)
  else if p.Applicability.Families ≠ [] then
    decide (article.Family ∈ p.Applicability.Families)
  else if p.Applicability.Classifications ≠ [] then
    decide (∃ c ∈ p.Applicability.Classifications, c ∈ article.Classification)
  else if p.Applicability.Categories ≠ [] then
    decide (article.Category ∈ p.Applicability.Categories)
  else true

/-- Modelled from the spec's words for the per-component shortage of
`CanFulfill` (spec §4.4): a component absent from the snapshot contributes
`"<code> (not found)"`; a component whose available stock is below
`QuantityPerKit × requestedKits` contributes `"<code> (need X, have Y)"`
(numbers rendered by the source's `formatFloat`); other components contribute
nothing.  To be compared, via `List.filterMap`, with the list built by
`Kit.CanFulfill`. -/
def shortageSpecEntry (quantity : ℚ) (articles : List (Nat × Article))
    (comp : KitComponent) : Option String :=
  match mapLookup articles comp.ArticleID with
  | none => some (comp.ArticleCode ++ " (not found)")
  | some article =>
      if article.Stock.Available < comp.Quantity * quantity then
        some (comp.ArticleCode ++ " (need " ++ formatFloat (comp.Quantity * quantity) ++
          ", have " ++ formatFloat article.Stock.Available ++ ")")
      else none

/-- The per-component ratio `available / quantityPerKit` named by the
availability claim (zero for a component missing from the snapshot).  As a
`ℚ` quotient it is compared with the program only for strictly positive
quantities: at quantity zero Go's float division yields `+Inf`, which `ℚ`
does not represent. -/
def compAvail (articles : List (Nat × Article)) (comp : KitComponent) : ℚ :=
  match mapLookup articles comp.ArticleID with
  | some article => article.Stock.Available / comp.Quantity
  | none => 0

/-- A component that is present in the snapshot with strictly positive
available stock. -/
def compGoodB (articles : List (Nat × Article)) (comp : KitComponent) : Bool :=
  match mapLookup articles comp.ArticleID with
  | some article => decide (0 < article.Stock.Available)
  | none => false

/-- A component that is missing from the snapshot or has available stock of
zero or less. -/
def compBadB (articles : List (Nat × Article)) (comp : KitComponent) : Bool :=
  match mapLookup articles comp.ArticleID with
  | some article => decide (article.Stock.Available ≤ 0)
  | none => true

/-- A 20% percent-discount promotion (used where the promotion must strictly
beat a 10% customer rule). -/
def promoBig : Promotion :=
  { promoBase with Rules := { promoBase.Rules with DiscountPercent := 20 } }

/-- The calculation produced for `custTie`, `artBase`, quantity 1 and the 20%
promotion `promoBig`: the promotion strictly beats the 10% rule. -/
def dcBig : DiscountCalculation :=
  { BasePrice := 100, CustomerDiscount := 0, PromotionDiscount := 20,
    NetPrice := 0, FinalPrice := 80, TotalDiscount := 20, DiscountPercent := 20,
    AppliedRule := none, AppliedPromotion := some promoBig }

/-- The calculation produced for `custTie`, `artBase`, quantity 1 and the 10%
promotion `promoTie`: a positive tie, resolved in favour of the customer rule. -/
def dcTie : DiscountCalculation :=
  { BasePrice := 100, CustomerDiscount := 10, PromotionDiscount := 0,
    NetPrice := 0, FinalPrice := 90, TotalDiscount := 10, DiscountPercent := 10,
    AppliedRule := some ruleBase, AppliedPromotion := none }

/-- The calculation produced for `custBase`, `artBase`, quantity 1 and the 10%
promotion `promoC1`: the promotion wins unopposed. -/
def dcPct : DiscountCalculation :=
  { BasePrice := 100, CustomerDiscount := 0, PromotionDiscount := 10,
    NetPrice := 0, FinalPrice := 90, TotalDiscount := 10, DiscountPercent := 10,
    AppliedRule := none, AppliedPromotion := some promoC1 }

/-- Invariant carried by the best-promotion scan: the accumulator discount is
nonnegative, and when a promotion has been selected its computed discount is
the strictly positive accumulator value. -/
def BestInv (basePrice quantity : ℚ) (acc : Option Promotion × ℚ) : Prop :=
  0 ≤ acc.2 ∧ ∀ p, acc.1 = some p →
    0 < acc.2 ∧ p.CalculateDiscount basePrice quantity = some acc.2

/-- Helper: incrementing the usage map raises the looked-up count by one. -/
theorem usagesIncr_lookupD (k : Nat) :
    ∀ m : List (Nat × Int), usagesLookupD (usagesIncr m k) k = usagesLookupD m k + 1
  | [] => by simp [usagesIncr, usagesLookupD, usagesLookup]
  | kv :: rest => by
      by_cases h : kv.1 = k
      · simp [usagesIncr, usagesLookupD, usagesLookup, h]
      · simp only [usagesIncr, if_neg h, usagesLookupD, usagesLookup]
        exact usagesIncr_lookupD k rest

/-- Helper: when the promotion scan succeeds, the calculation returned by the
use case is `usecaseFinishCalc` of the scan result. -/
theorem usecase_ok_some_eq (now : Int) (customer : Customer) (article : Article)
    (quantity : ℚ) (promos : List Promotion) (best : Option Promotion × ℚ)
    (dc : DiscountCalculation)
    (hbest : usecaseBestPromotion customer article quantity
        (usecaseBasePrice now customer article).2 (none, 0) promos = some best)
    (hcalc : usecaseCalculateFinalPrice now customer article quantity (Except.ok promos)
        = Except.ok (some dc)) :
    dc = usecaseFinishCalc now customer article quantity
        (usecaseBasePrice now customer article) best := by
  simp only [usecaseCalculateFinalPrice] at hcalc
  rw [hbest] at hcalc
  simpa using hcalc.symm

/-- Helper: the shortage list built by the `CanFulfill` loop is the
`filterMap` of the per-component shortage description. -/
theorem canFulfillLoop_filterMap (quantity : ℚ) (articles : List (Nat × Article)) :
    ∀ comps : List KitComponent,
      canFulfillLoop quantity articles comps
        = comps.filterMap (shortageSpecEntry quantity articles)
  | [] => by simp [canFulfillLoop]
  | comp :: rest => by
      simp only [canFulfillLoop, shortageSpecEntry, List.filterMap_cons]
      cases h : mapLookup articles comp.ArticleID with
      | none => simp [canFulfillLoop_filterMap quantity articles rest]
      | some article =>
          by_cases hav : article.Stock.Available < comp.Quantity * quantity
          · simp [hav, canFulfillLoop_filterMap quantity articles rest]
          · simp [hav, canFulfillLoop_filterMap quantity articles rest]

/-- C4: for every promotion and article, `IsApplicableToArticle` as translated
from the source coincides with the spec's reading: the excluded-articles list
is checked first and short-circuits to false; otherwise the applicability
lists (article codes, precodici, families, classifications, categories) are
consulted in that order and the first non-empty list alone decides the result,
with no fallthrough on a miss; if all of these lists are empty the promotion
applies to every article. -/
theorem isApplicableToArticle_first_nonempty (p : Promotion) (article : Article) :
    p.IsApplicableToArticle article = specApplicableToArticle p article := by
  unfold Promotion.IsApplicableToArticle specApplicableToArticle
  by_cases hex : article.Code ∈ p.Applicability.ExcludedArticles
  · have hne : p.Applicability.ExcludedArticles ≠ [] := by
      intro h
      rw [h] at hex
      simp at hex
    rw [if_pos ⟨hne, hex⟩, if_pos hex]
  · rw [if_neg (fun h => hex h.2), if_neg hex]
    split_ifs with h1 h2 h3 h4 h5 <;> simp_all

/-- Helper: a left fold by `min` is a lower bound of its seed and all elements. -/
theorem foldlMin_le (x : ℚ) : ∀ (l : List ℚ) (a : ℚ), x ∈ a :: l → l.foldl min a ≤ x
  | [], a, hx => by
      simp at hx
      simp [hx]
  | b :: t, a, hx => by
      simp only [List.foldl_cons]
      rcases List.mem_cons.mp hx with hxa | hx'
      · calc t.foldl min (min a b) ≤ min a b :=
          foldlMin_le (min a b) t (min a b) (List.mem_cons_self _ _)
        _ ≤ a := min_le_left _ _
        _ = x := hxa.symm ▸ rfl
      · rcases List.mem_cons.mp hx' with hxb | hxt
        · calc t.foldl min (min a b) ≤ min a b :=
            foldlMin_le (min a b) t (min a b) (List.mem_cons_self _ _)
          _ ≤ b := min_le_right _ _
          _ = x := hxb.symm ▸ rfl
        · exact foldlMin_le x t (min a b) (List.mem_cons.mpr (Or.inr hxt))

/-- Helper: a left fold by `min` returns its seed or one of the elements. -/
theorem foldlMin_mem : ∀ (l : List ℚ) (a : ℚ), l.foldl min a ∈ a :: l
  | [], a => by simp
  | b :: t, a => by
      simp only [List.foldl_cons]
      have h := foldlMin_mem t (min a b)
      rcases List.mem_cons.mp h with h1 | h2
      · rw [h1]
        rcases min_choice a b with hm | hm <;> rw [hm] <;> simp
      · simp [List.mem_cons.mpr (Or.inr (List.mem_cons.mpr (Or.inr h2)))]

/-- Helper: when every component is present with positive stock and has a
strictly positive quantity (the region where exact rational division agrees
with the program's float division — `x / 0` is `+Inf` in Go float but `0` in
`ℚ`), the availability loop computes the running minimum of the
per-component ratios. -/
theorem calcLoop_all_good (articles : List (Nat × Article)) :
    ∀ (comps : List KitComponent) (seed : ℚ), 0 ≤ seed →
    (∀ c ∈ comps, compGoodB articles c = true ∧ 0 < c.Quantity) →
    calculateAvailabilityLoop articles comps seed
      = (comps.map (compAvail articles)).foldl min seed
  | [], seed, hseed, _ => by
      simp [calculateAvailabilityLoop, not_lt.mpr hseed]
  | c :: t, seed, hseed, hgood => by
      obtain ⟨hg, hq⟩ := hgood c (List.mem_cons_self _ _)
      have ht : ∀ x ∈ t, compGoodB articles x = true ∧ 0 < x.Quantity :=
        fun x hx => hgood x (List.mem_cons.mpr (Or.inr hx))
      simp only [compGoodB] at hg
      cases hl : mapLookup articles c.ArticleID with
      | none => rw [hl] at hg; simp at hg
      | some article =>
          rw [hl] at hg
          simp only [decide_eq_true_eq] at hg
          have hk : (0 : ℚ) ≤ article.Stock.Available / c.Quantity :=
            div_nonneg (le_of_lt hg) (le_of_lt hq)
          have hca : compAvail articles c = article.Stock.Available / c.Quantity := by
            simp [compAvail, hl]
          simp only [calculateAvailabilityLoop, hl, if_neg (not_le.mpr hg),
            List.map_cons, List.foldl_cons, hca]
          by_cases hlt : article.Stock.Available / c.Quantity < seed
          · rw [if_pos (Or.inr hlt), calcLoop_all_good articles t _ hk ht,
              min_eq_right (le_of_lt hlt)]
          · rw [if_neg (by push_neg; exact ⟨hseed, not_lt.mp hlt⟩),
              calcLoop_all_good articles t seed hseed ht,
              min_eq_left (not_lt.mp hlt)]

/-- Helper: a missing or non-positive-stock component anywhere in the list
drives the availability loop to zero. -/
theorem calcLoop_bad_zero (articles : List (Nat × Article)) :
    ∀ (comps : List KitComponent) (seed : ℚ),
    (∃ c ∈ comps, compBadB articles c = true) →
    calculateAvailabilityLoop articles comps seed = 0
  | [], _, hbad => by simp at hbad
  | c :: t, seed, hbad => by
      cases hl : mapLookup articles c.ArticleID with
      | none => simp [calculateAvailabilityLoop, hl]
      | some article =>
          by_cases hav : article.Stock.Available ≤ 0
          · simp [calculateAvailabilityLoop, hl, hav]
          · have hb : ∃ x ∈ t, compBadB articles x = true := by
              obtain ⟨x, hx, hxb⟩ := hbad
              rcases List.mem_cons.mp hx with rfl | hxt
              · exfalso
                simp [compBadB, hl, hav] at hxb
              · exact ⟨x, hxt, hxb⟩
            simp only [calculateAvailabilityLoop, hl, if_neg hav]
            split
            · exact calcLoop_bad_zero articles t _ hb
            · exact calcLoop_bad_zero articles t seed hb

/-- Helper: once a missing or non-positive-stock component is reached, the
components after it do not influence the availability loop. -/
theorem calcLoop_shortcircuit (articles : List (Nat × Article)) (c : KitComponent)
    (hc : compBadB articles c = true) :
    ∀ (pre rest rest' : List KitComponent) (seed : ℚ),
    calculateAvailabilityLoop articles (pre ++ c :: rest) seed
      = calculateAvailabilityLoop articles (pre ++ c :: rest') seed
  | [], rest, rest', seed => by
      cases hl : mapLookup articles c.ArticleID with
      | none => simp [calculateAvailabilityLoop, hl]
      | some article =>
          have hav : article.Stock.Available ≤ 0 := by
            simp only [compBadB, hl, decide_eq_true_eq] at hc
            exact hc
          simp [calculateAvailabilityLoop, hl, hav]
  | p :: pre, rest, rest', seed => by
      cases hl : mapLookup articles p.ArticleID with
      | none => simp [calculateAvailabilityLoop, hl]
      | some article =>
          by_cases hav : article.Stock.Available ≤ 0
          · simp [calculateAvailabilityLoop, hl, hav]
          · simp only [List.cons_append, calculateAvailabilityLoop, hl, if_neg hav]
            split
            · exact calcLoop_shortcircuit articles c hc pre rest rest' _
            · exact calcLoop_shortcircuit articles c hc pre rest rest' seed

/-- Helper: `CalculateDiscount` cannot panic except for an `nxm` promotion
with `BuyQuantity = 0`. -/
theorem calculateDiscount_total (p : Promotion) (basePrice quantity : ℚ)
    (h : p.PType = "nxm" → p.Rules.BuyQuantity ≠ 0) :
    ∃ d, p.CalculateDiscount basePrice quantity = some d := by
  unfold Promotion.CalculateDiscount
  split_ifs with h1 h2 h3 h4
  · exact ⟨_, rfl⟩
  · exact ⟨_, rfl⟩
  · exact absurd h4 (h h3)
  · exact ⟨_, rfl⟩
  · exact ⟨_, rfl⟩

/-- Helper: one step of the promotion scan cannot panic when the promotion is
not a zero-`BuyQuantity` `nxm` promotion. -/
theorem bestPromotionStep_total (customer : Customer) (article : Article)
    (quantity basePrice : ℚ) (acc : Option Promotion × ℚ) (p : Promotion)
    (h : p.PType = "nxm" → p.Rules.BuyQuantity ≠ 0) :
    ∃ acc', bestPromotionStep customer article quantity basePrice acc p = some acc' := by
  obtain ⟨d, hd⟩ := calculateDiscount_total p basePrice quantity h
  unfold bestPromotionStep
  rw [hd]
  split_ifs <;> exact ⟨_, rfl⟩

/-- Helper: the promotion scan terminates normally when no active `nxm`
promotion has `BuyQuantity = 0`. -/
theorem bestPromotion_total (customer : Customer) (article : Article)
    (quantity basePrice : ℚ) :
    ∀ (promos : List Promotion) (acc : Option Promotion × ℚ),
    (∀ p ∈ promos, p.PType = "nxm" → p.Rules.BuyQuantity ≠ 0) →
    ∃ r, usecaseBestPromotion customer article quantity basePrice acc promos = some r
  | [], acc, _ => ⟨acc, rfl⟩
  | p :: t, acc, h => by
      obtain ⟨acc', hacc⟩ := bestPromotionStep_total customer article quantity basePrice
        acc p (h p (List.mem_cons_self _ _))
      obtain ⟨r, hr⟩ := bestPromotion_total customer article quantity basePrice t acc'
        (fun q hq => h q (List.mem_cons.mpr (Or.inr hq)))
      exact ⟨r, by simp only [usecaseBestPromotion, hacc]; exact hr⟩

/-- Helper: one step of the promotion scan preserves `BestInv`. -/
theorem bestPromotionStep_inv (customer : Customer) (article : Article)
    (quantity basePrice : ℚ) (acc acc' : Option Promotion × ℚ) (p : Promotion)
    (hstep : bestPromotionStep customer article quantity basePrice acc p = some acc')
    (hinv : BestInv basePrice quantity acc) : BestInv basePrice quantity acc' := by
  unfold bestPromotionStep at hstep
  cases hd : p.CalculateDiscount basePrice quantity with
  | none =>
      rw [hd] at hstep
      split_ifs at hstep
      all_goals exact Option.some.inj hstep ▸ hinv
  | some d =>
      rw [hd] at hstep
      split_ifs at hstep
      all_goals try exact Option.some.inj hstep ▸ hinv
      have hx := Option.some.inj hstep
      by_cases hlt : acc.2 < d
      · rw [if_pos hlt] at hx
        refine hx ▸ ⟨le_of_lt (lt_of_le_of_lt hinv.1 hlt), ?_⟩
        intro q hq
        have hpq : p = q := Option.some.inj hq
        exact ⟨lt_of_le_of_lt hinv.1 hlt, hpq ▸ hd⟩
      · rw [if_neg hlt] at hx
        exact hx ▸ hinv

/-- Helper: the promotion scan preserves `BestInv`. -/
theorem bestPromotion_inv (customer : Customer) (article : Article)
    (quantity basePrice : ℚ) :
    ∀ (promos : List Promotion) (acc r : Option Promotion × ℚ),
    usecaseBestPromotion customer article quantity basePrice acc promos = some r →
    BestInv basePrice quantity acc → BestInv basePrice quantity r
  | [], acc, r, hr, hinv => by
      simp only [usecaseBestPromotion, Option.some.injEq] at hr
      exact hr ▸ hinv
  | p :: t, acc, r, hr, hinv => by
      simp only [usecaseBestPromotion] at hr
      cases hstep : bestPromotionStep customer article quantity basePrice acc p with
      | none => rw [hstep] at hr; exact absurd hr (by simp)
      | some acc' =>
          rw [hstep] at hr
          exact bestPromotion_inv customer article quantity basePrice t acc' r hr
            (bestPromotionStep_inv customer article quantity basePrice acc acc' p hstep hinv)



/-- C1 counterexample: with the stored rule `ruleC1` (`DiscountPercent = -10`)
and the 10% promotion `promoC1`, at base price 100 and quantity 1 both
computed discounts are non-zero (`-10` and `10`), yet the mutual-exclusion
block (which tests `> 0`, not `≠ 0`) is skipped: both discounts survive, both
references stay set, and the final price is `100 - (-10) - 10 = 100`, not the
base price minus the larger discount alone (`90`).  This refutes the claim as
stated for non-zero (as opposed to strictly positive) discounts. -/
theorem both_nonzero_discounts_both_survive :
    usecaseCalculateFinalPrice 10 custC1 artBase 1 (Except.ok [promoC1])
      = Except.ok (some
        { BasePrice := 100, CustomerDiscount := -10, PromotionDiscount := 10,
          NetPrice := 0, FinalPrice := 100, TotalDiscount := 0, DiscountPercent := 0,
          AppliedRule := some ruleC1, AppliedPromotion := some promoC1 })
    ∧ (-10 : ℚ) ≠ 0 ∧ (10 : ℚ) ≠ 0 ∧ (100 : ℚ) ≠ 100 - 10 := by
  refine ⟨?_, by norm_num, by norm_num, by norm_num⟩
  norm_num +decide [usecaseCalculateFinalPrice, usecaseBasePrice, Article.GetNetPrice,
    getNetPriceLoop, usecaseBestPromotion, bestPromotionStep,
    Promotion.IsApplicableToArticle, Promotion.IsApplicableToCustomer,
    Promotion.CanBeUsed, Promotion.customerUsageLimitHit, usagesLookup,
    Promotion.CalculateDiscount, usecaseFinishCalc, usecaseCustomerDiscountPair,
    Customer.GetApplicableDiscount, getApplicableDiscountLoop, ruleMatches,
    usecasePromotionPair, applyMutualExclusion, custC1, ruleC1, promoC1, artBase,
    ruleBase, custBase, promoBase, statsBase]

/-- C1 (amended): whenever both computed discounts are strictly positive,
exactly the larger one survives (the promotion wins only when strictly
larger): the other is zeroed, its applied rule/promotion reference is cleared,
and the final price equals the base price minus the surviving discount
alone. -/
theorem mutual_exclusion_of_positive_discounts
    (now : Int) (customer : Customer) (article : Article) (quantity : ℚ)
    (promos : List Promotion) (best : Option Promotion × ℚ) (dc : DiscountCalculation)
    (hbest : usecaseBestPromotion customer article quantity
        (usecaseBasePrice now customer article).2 (none, 0) promos = some best)
    (hcalc : usecaseCalculateFinalPrice now customer article quantity (Except.ok promos)
        = Except.ok (some dc))
    (hcd : 0 < (usecaseCustomerDiscountPair now customer article quantity
        (usecaseBasePrice now customer article).2).2)
    (hpd : 0 < (usecasePromotionPair best quantity).2) :
    ((usecaseCustomerDiscountPair now customer article quantity
          (usecaseBasePrice now customer article).2).2
        < (usecasePromotionPair best quantity).2 →
      dc.CustomerDiscount = 0 ∧ dc.AppliedRule = none ∧
      dc.PromotionDiscount = (usecasePromotionPair best quantity).2 ∧
      dc.AppliedPromotion = (usecasePromotionPair best quantity).1 ∧
      dc.FinalPrice = dc.BasePrice - (usecasePromotionPair best quantity).2)
    ∧ (¬ (usecaseCustomerDiscountPair now customer article quantity
          (usecaseBasePrice now customer article).2).2
        < (usecasePromotionPair best quantity).2 →
      dc.CustomerDiscount = (usecaseCustomerDiscountPair now customer article quantity
          (usecaseBasePrice now customer article).2).2 ∧
      dc.AppliedRule = (usecaseCustomerDiscountPair now customer article quantity
          (usecaseBasePrice now customer article).2).1 ∧
      dc.PromotionDiscount = 0 ∧ dc.AppliedPromotion = none ∧
      dc.FinalPrice = dc.BasePrice - (usecaseCustomerDiscountPair now customer article
          quantity (usecaseBasePrice now customer article).2).2) := by
  have hdc := usecase_ok_some_eq now customer article quantity promos best dc hbest hcalc
  subst hdc
  constructor
  · intro hlt
    simp only [usecaseFinishCalc, applyMutualExclusion]
    rw [if_pos ⟨hcd, hpd⟩, if_pos hlt]
    simp
  · intro hge
    simp only [usecaseFinishCalc, applyMutualExclusion]
    rw [if_pos ⟨hcd, hpd⟩, if_neg hge]
    simp


/-- Witness for C1: at base price 100, a 10% customer rule against a 20%
promotion; the promotion survives alone and the final price is 80. -/
theorem mutual_exclusion_of_positive_discounts_witness :
    dcBig.CustomerDiscount = 0 ∧ dcBig.AppliedRule = none ∧
    dcBig.PromotionDiscount = (usecasePromotionPair (some promoBig, 20) 1).2 ∧
    dcBig.AppliedPromotion = (usecasePromotionPair (some promoBig, 20) 1).1 ∧
    dcBig.FinalPrice = dcBig.BasePrice - (usecasePromotionPair (some promoBig, 20) 1).2 := by
  have h := mutual_exclusion_of_positive_discounts 10 custTie artBase 1 [promoBig]
    (some promoBig, 20) dcBig
    (by norm_num +decide [usecaseBestPromotion, bestPromotionStep, usecaseBasePrice,
      Article.GetNetPrice, getNetPriceLoop, Promotion.IsApplicableToArticle,
      Promotion.IsApplicableToCustomer, Promotion.CanBeUsed,
      Promotion.customerUsageLimitHit, usagesLookup, Promotion.CalculateDiscount,
      custTie, artBase, ruleBase, custBase, promoBig, promoBase, statsBase])
    (by norm_num +decide [usecaseCalculateFinalPrice, usecaseBasePrice, Article.GetNetPrice,
      getNetPriceLoop, usecaseBestPromotion, bestPromotionStep,
      Promotion.IsApplicableToArticle, Promotion.IsApplicableToCustomer,
      Promotion.CanBeUsed, Promotion.customerUsageLimitHit, usagesLookup,
      Promotion.CalculateDiscount, usecaseFinishCalc, usecaseCustomerDiscountPair,
      Customer.GetApplicableDiscount, getApplicableDiscountLoop, ruleMatches,
      usecasePromotionPair, applyMutualExclusion, custTie, artBase, ruleBase,
      custBase, promoBig, promoBase, statsBase, dcBig])
    (by norm_num +decide [usecaseCustomerDiscountPair, usecaseBasePrice,
      Article.GetNetPrice, getNetPriceLoop, Customer.GetApplicableDiscount,
      getApplicableDiscountLoop, ruleMatches, custTie, artBase, ruleBase, custBase])
    (by norm_num [usecasePromotionPair])
  exact h.1 (by norm_num +decide [usecaseCustomerDiscountPair, usecaseBasePrice,
    Article.GetNetPrice, getNetPriceLoop, Customer.GetApplicableDiscount,
    getApplicableDiscountLoop, ruleMatches, usecasePromotionPair, custTie, artBase,
    ruleBase, custBase])

/-- C10 counterexample: at quantity `-1`, the fixed-price promotion `promoC10`
wins the scan with total discount `+100` but a per-unit discount of `-100`,
and the rule `ruleC10` computes a customer discount of `-100`: the two
discounts are non-zero and exactly equal, yet the tie is NOT resolved — the
exclusion block (which requires both `> 0`) is skipped, the promotion is not
zeroed and `AppliedPromotion` is not cleared.  This refutes the claim as
stated for non-zero (as opposed to strictly positive) equal discounts. -/
theorem negative_equal_discounts_both_survive :
    usecaseCalculateFinalPrice 10 custC10 artBase (-1) (Except.ok [promoC10])
      = Except.ok (some
        { BasePrice := 100, CustomerDiscount := -100, PromotionDiscount := -100,
          NetPrice := 0, FinalPrice := 300, TotalDiscount := -200, DiscountPercent := -200,
          AppliedRule := some ruleC10, AppliedPromotion := some promoC10 })
    ∧ (-100 : ℚ) ≠ 0 := by
  refine ⟨?_, by norm_num⟩
  norm_num +decide [usecaseCalculateFinalPrice, usecaseBasePrice, Article.GetNetPrice,
    getNetPriceLoop, usecaseBestPromotion, bestPromotionStep,
    Promotion.IsApplicableToArticle, Promotion.IsApplicableToCustomer,
    Promotion.CanBeUsed, Promotion.customerUsageLimitHit, usagesLookup,
    Promotion.CalculateDiscount, usecaseFinishCalc, usecaseCustomerDiscountPair,
    Customer.GetApplicableDiscount, getApplicableDiscountLoop, ruleMatches,
    usecasePromotionPair, applyMutualExclusion, custC10, ruleC10, promoC10, artBase,
    ruleBase, custBase, promoBase, statsBase]

/-- C10 (amended): when the computed customer discount is strictly positive
and the per-unit promotion discount is exactly equal to it, the tie is
resolved in favour of the customer discount: the rule stays applied and the
promotion discount is zeroed with its `AppliedPromotion` reference cleared. -/
theorem equal_positive_discounts_favor_customer
    (now : Int) (customer : Customer) (article : Article) (quantity : ℚ)
    (promos : List Promotion) (best : Option Promotion × ℚ) (dc : DiscountCalculation)
    (hbest : usecaseBestPromotion customer article quantity
        (usecaseBasePrice now customer article).2 (none, 0) promos = some best)
    (hcalc : usecaseCalculateFinalPrice now customer article quantity (Except.ok promos)
        = Except.ok (some dc))
    (hcd : 0 < (usecaseCustomerDiscountPair now customer article quantity
        (usecaseBasePrice now customer article).2).2)
    (heq : (usecasePromotionPair best quantity).2
        = (usecaseCustomerDiscountPair now customer article quantity
            (usecaseBasePrice now customer article).2).2) :
    dc.CustomerDiscount = (usecaseCustomerDiscountPair now customer article quantity
        (usecaseBasePrice now customer article).2).2 ∧
    dc.AppliedRule = (usecaseCustomerDiscountPair now customer article quantity
        (usecaseBasePrice now customer article).2).1 ∧
    dc.PromotionDiscount = 0 ∧ dc.AppliedPromotion = none ∧
    dc.FinalPrice = dc.BasePrice - (usecaseCustomerDiscountPair now customer article
        quantity (usecaseBasePrice now customer article).2).2 := by
  have hdc := usecase_ok_some_eq now customer article quantity promos best dc hbest hcalc
  subst hdc
  have hpd : 0 < (usecasePromotionPair best quantity).2 := heq ▸ hcd
  have hnlt : ¬ (usecaseCustomerDiscountPair now customer article quantity
      (usecaseBasePrice now customer article).2).2
        < (usecasePromotionPair best quantity).2 := by
    rw [heq]
    exact lt_irrefl _
  simp only [usecaseFinishCalc, applyMutualExclusion]
  rw [if_pos ⟨hcd, hpd⟩, if_neg hnlt]
  simp


/-- Witness for C10: a 10% rule tied with a 10% promotion at base price 100
and quantity 1; the customer rule survives and the promotion is cleared. -/
theorem equal_positive_discounts_favor_customer_witness :
    dcTie.CustomerDiscount = (usecaseCustomerDiscountPair 10 custTie artBase 1
        (usecaseBasePrice 10 custTie artBase).2).2 ∧
    dcTie.AppliedRule = (usecaseCustomerDiscountPair 10 custTie artBase 1
        (usecaseBasePrice 10 custTie artBase).2).1 ∧
    dcTie.PromotionDiscount = 0 ∧ dcTie.AppliedPromotion = none ∧
    dcTie.FinalPrice = dcTie.BasePrice - (usecaseCustomerDiscountPair 10 custTie artBase 1
        (usecaseBasePrice 10 custTie artBase).2).2 := by
  exact equal_positive_discounts_favor_customer 10 custTie artBase 1 [promoTie]
    (some promoTie, 10) dcTie
    (by norm_num +decide [usecaseBestPromotion, bestPromotionStep, usecaseBasePrice,
      Article.GetNetPrice, getNetPriceLoop, Promotion.IsApplicableToArticle,
      Promotion.IsApplicableToCustomer, Promotion.CanBeUsed,
      Promotion.customerUsageLimitHit, usagesLookup, Promotion.CalculateDiscount,
      custTie, artBase, ruleBase, custBase, promoTie, promoBase, statsBase])
    (by norm_num +decide [usecaseCalculateFinalPrice, usecaseBasePrice, Article.GetNetPrice,
      getNetPriceLoop, usecaseBestPromotion, bestPromotionStep,
      Promotion.IsApplicableToArticle, Promotion.IsApplicableToCustomer,
      Promotion.CanBeUsed, Promotion.customerUsageLimitHit, usagesLookup,
      Promotion.CalculateDiscount, usecaseFinishCalc, usecaseCustomerDiscountPair,
      Customer.GetApplicableDiscount, getApplicableDiscountLoop, ruleMatches,
      usecasePromotionPair, applyMutualExclusion, custTie, artBase, ruleBase,
      custBase, promoTie, promoBase, statsBase, dcTie])
    (by norm_num +decide [usecaseCustomerDiscountPair, usecaseBasePrice,
      Article.GetNetPrice, getNetPriceLoop, Customer.GetApplicableDiscount,
      getApplicableDiscountLoop, ruleMatches, custTie, artBase, ruleBase, custBase])
    (by norm_num +decide [usecaseCustomerDiscountPair, usecaseBasePrice,
      Article.GetNetPrice, getNetPriceLoop, Customer.GetApplicableDiscount,
      getApplicableDiscountLoop, ruleMatches, usecasePromotionPair, custTie, artBase,
      ruleBase, custBase])

/-- C2 counterexample: the rule `ruleC2` carries cascade `[50]` and
`DiscountPercent = 0`.  The use case computes a customer discount of `0`
(`basePrice * 0 / 100`), so the 1% promotion (absolute per-unit discount `1`)
is applied and the final price is `99`; the cascade-equivalent absolute
amount, computed by the domain method `Customer.CalculateFinalPrice`, is
`100 - 50 = 50`.  The comparison therefore does NOT receive the cascade
equivalent, refuting the cascade half of the claim. -/
theorem cascade_rule_not_converted_in_usecase :
    usecaseCalculateFinalPrice 10 custC2 artBase 1 (Except.ok [promoC2])
      = Except.ok (some
        { BasePrice := 100, CustomerDiscount := 0, PromotionDiscount := 1,
          NetPrice := 0, FinalPrice := 99, TotalDiscount := 1, DiscountPercent := 1,
          AppliedRule := some ruleC2, AppliedPromotion := some promoC2 })
    ∧ 100 - custC2.CalculateFinalPrice 10 artBase 1 100 = 50
    ∧ (0 : ℚ) ≠ 50 := by
  refine ⟨?_, ?_, by norm_num⟩
  · norm_num +decide [usecaseCalculateFinalPrice, usecaseBasePrice, Article.GetNetPrice,
      getNetPriceLoop, usecaseBestPromotion, bestPromotionStep,
      Promotion.IsApplicableToArticle, Promotion.IsApplicableToCustomer,
      Promotion.CanBeUsed, Promotion.customerUsageLimitHit, usagesLookup,
      Promotion.CalculateDiscount, usecaseFinishCalc, usecaseCustomerDiscountPair,
      Customer.GetApplicableDiscount, getApplicableDiscountLoop, ruleMatches,
      usecasePromotionPair, applyMutualExclusion, custC2, ruleC2, promoC2, artBase,
      ruleBase, custBase, promoBase, statsBase]
  · norm_num +decide [Customer.CalculateFinalPrice, Customer.GetApplicableDiscount,
      getApplicableDiscountLoop, ruleMatches, custC2, ruleC2, artBase, ruleBase, custBase]

/-- C2 (amended): the customer-discount amount entering the mutual-exclusion
comparison is always `basePrice * DiscountPercent / 100`, for every applicable
rule — including rules with a non-empty `DiscountCascade`, whose cascade is
ignored by this pricing path (sequential cascade application exists only in
the domain method `Customer.CalculateFinalPrice`, which the use case does not
invoke). -/
theorem customer_discount_ignores_cascade
    (now : Int) (customer : Customer) (article : Article) (quantity basePrice : ℚ)
    (rule : DiscountRule)
    (h : customer.GetApplicableDiscount now article quantity = some rule) :
    usecaseCustomerDiscountPair now customer article quantity basePrice
      = (some rule, basePrice * (rule.DiscountPercent / 100)) := by
  simp [usecaseCustomerDiscountPair, h]

/-- Witness for C2: the cascade rule `ruleC2` yields the pair
`(some ruleC2, 100 * (0 / 100))`. -/
theorem customer_discount_ignores_cascade_witness :
    usecaseCustomerDiscountPair 10 custC2 artBase 1 100
      = (some ruleC2, 100 * (ruleC2.DiscountPercent / 100)) :=
  customer_discount_ignores_cascade 10 custC2 artBase 1 100 ruleC2
    (by norm_num +decide [Customer.GetApplicableDiscount, getApplicableDiscountLoop,
      ruleMatches, custC2, ruleC2, artBase, ruleBase, custBase])

/-- C3 counterexample: `ruleC3` has the non-empty `ArticleCode "X"` which
does not equal the queried article's code `"Y"`, yet the rule IS selected by
`GetApplicableDiscount` because its `Precodice "P"` matches the article: the
compound condition `ArticleCode != "" && ArticleCode == article.Code` is
false as a whole, so control falls through to the `Precodice` branch. -/
theorem mismatched_article_code_rule_selected :
    custC3.GetApplicableDiscount 10 artC3 1 = some ruleC3
    ∧ ruleC3.ArticleCode ≠ "" ∧ ruleC3.ArticleCode ≠ artC3.Code := by
  refine ⟨?_, by norm_num +decide [ruleC3, ruleBase],
    by norm_num +decide [ruleC3, ruleBase, artC3, artBase]⟩
  norm_num +decide [Customer.GetApplicableDiscount, getApplicableDiscountLoop,
    ruleMatches, custC3, ruleC3, artC3, ruleBase, artBase, custBase]

/-- C3 (amended): a rule with a non-empty `ArticleCode` different from the
article's code is not matched by the article-code branch, but it IS re-tested
against the subsequent branches: it matches exactly when its `Precodice`,
`Family`, or `Classification` field is non-empty and matches the article. -/
theorem mismatched_article_code_falls_through
    (rule : DiscountRule) (article : Article)
    (h1 : rule.ArticleCode ≠ "") (h2 : rule.ArticleCode ≠ article.Code) :
    ruleMatches rule article = true ↔
      (rule.Precodice ≠ "" ∧ rule.Precodice = article.Precodice) ∨
      (rule.Family ≠ "" ∧ rule.Family = article.Family) ∨
      (rule.Classification ≠ "" ∧ rule.Classification ∈ article.Classification) := by
  unfold ruleMatches
  rw [if_neg (fun h => h2 h.2)]
  split_ifs with hp hf hc
  · exact iff_of_true rfl (Or.inl hp)
  · exact iff_of_true rfl (Or.inr (Or.inl hf))
  · simp only [decide_eq_true_eq]
    constructor
    · intro hm
      exact Or.inr (Or.inr ⟨hc, hm⟩)
    · intro hor
      rcases hor with h | h | h
      · exact absurd h hp
      · exact absurd h hf
      · exact h.2
  · constructor
    · intro h
      exact absurd h (by simp)
    · intro hor
      rcases hor with h | h | h
      · exact absurd h hp
      · exact absurd h hf
      · exact absurd h.1 (not_not.mpr (not_ne_iff.mp hc))

/-- Witness for C3: `ruleC3` (code "X", precodice "P") matches `artC3`
(code "Y", precodice "P"). -/
theorem mismatched_article_code_falls_through_witness :
    ruleMatches ruleC3 artC3 = true :=
  (mismatched_article_code_falls_through ruleC3 artC3
    (by norm_num +decide [ruleC3, ruleBase])
    (by norm_num +decide [ruleC3, ruleBase, artC3, artBase])).mpr
    (Or.inl ⟨by norm_num +decide [ruleC3, ruleBase],
      by norm_num +decide [ruleC3, ruleBase, artC3, artBase]⟩)

/-- C5 counterexample: the `nxm` promotion `promoC5` with `BuyQuantity = 0`
passes every applicability and usability check, reaches `CalculateDiscount`,
and the Go expression `int(quantity) / p.Rules.BuyQuantity` divides by zero —
a runtime panic, modelled as the inner `none`.  The claim that no domain
input (explicitly including this one) can make the computation fail or crash
is refuted. -/
theorem nxm_zero_buy_quantity_panics :
    usecaseCalculateFinalPrice 10 custBase artBase 1 (Except.ok [promoC5])
      = Except.ok none
    ∧ promoC5.PType = "nxm" ∧ promoC5.Rules.BuyQuantity = 0 := by
  refine ⟨?_, by norm_num +decide [promoC5, promoBase],
    by norm_num +decide [promoC5, promoBase]⟩
  norm_num +decide [usecaseCalculateFinalPrice, usecaseBasePrice, Article.GetNetPrice,
    getNetPriceLoop, usecaseBestPromotion, bestPromotionStep,
    Promotion.IsApplicableToArticle, Promotion.IsApplicableToCustomer,
    Promotion.CanBeUsed, Promotion.customerUsageLimitHit, usagesLookup,
    Promotion.CalculateDiscount, custBase, artBase, promoC5, promoBase, statsBase]

/-- C5 (amended): a repository error is propagated unchanged, and when no
active promotion is an `nxm` promotion with `BuyQuantity = 0` the rest of the
computation is total: it always yields a `DiscountCalculation` (in particular
a quantity of zero cannot make it fail). -/
theorem calculateFinalPrice_total_when_nxm_wellformed
    (now : Int) (customer : Customer) (article : Article) (quantity : ℚ)
    (promos : List Promotion) (e : String)
    (hwf : ∀ p ∈ promos, p.PType = "nxm" → p.Rules.BuyQuantity ≠ 0) :
    (∃ dc, usecaseCalculateFinalPrice now customer article quantity (Except.ok promos)
        = Except.ok (some dc))
    ∧ usecaseCalculateFinalPrice now customer article quantity (Except.error e)
        = Except.error e := by
  refine ⟨?_, rfl⟩
  obtain ⟨r, hr⟩ := bestPromotion_total customer article quantity
    (usecaseBasePrice now customer article).2 promos (none, 0) hwf
  refine ⟨usecaseFinishCalc now customer article quantity
    (usecaseBasePrice now customer article) r, ?_⟩
  simp only [usecaseCalculateFinalPrice]
  rw [hr]

/-- Witness for C5: with the single percent promotion `promoC1` the
computation yields a calculation, and a repository error string is returned
as-is. -/
theorem calculateFinalPrice_total_when_nxm_wellformed_witness :
    (∃ dc, usecaseCalculateFinalPrice 10 custBase artBase 1 (Except.ok [promoC1])
        = Except.ok (some dc))
    ∧ usecaseCalculateFinalPrice 10 custBase artBase 1
        (Except.error "repository unavailable") = Except.error "repository unavailable" :=
  calculateFinalPrice_total_when_nxm_wellformed 10 custBase artBase 1 [promoC1]
    "repository unavailable"
    (by norm_num +decide [promoC1, promoBase])

/-- C8 counterexample to the "can win" part: the bundle promotion `promoC8`
is matched by the applicability checks and is usable, and it is the ONLY
active promotion — yet `AppliedPromotion` is `none`, because the selection
requires `discount > bestPromotionDiscount` with `bestPromotionDiscount`
initialised to `0`, and a bundle's computed discount is `0`. -/
theorem bundle_promotion_matched_but_never_wins :
    promoC8.IsApplicableToArticle artBase = true
    ∧ (promoC8.CanBeUsed custBase.ID 1 100).1 = true
    ∧ promoC8.CalculateDiscount 100 1 = some 0
    ∧ usecaseCalculateFinalPrice 10 custBase artBase 1 (Except.ok [promoC8])
        = Except.ok (some
          { BasePrice := 100, CustomerDiscount := 0, PromotionDiscount := 0,
            NetPrice := 0, FinalPrice := 100, TotalDiscount := 0, DiscountPercent := 0,
            AppliedRule := none, AppliedPromotion := none }) := by
  refine ⟨by norm_num +decide [Promotion.IsApplicableToArticle, promoC8, promoBase,
      artBase],
    by norm_num +decide [Promotion.CanBeUsed, Promotion.customerUsageLimitHit,
      usagesLookup, promoC8, promoBase, statsBase, custBase],
    by norm_num +decide [Promotion.CalculateDiscount, promoC8, promoBase], ?_⟩
  norm_num +decide [usecaseCalculateFinalPrice, usecaseBasePrice, Article.GetNetPrice,
    getNetPriceLoop, usecaseBestPromotion, bestPromotionStep,
    Promotion.IsApplicableToArticle, Promotion.IsApplicableToCustomer,
    Promotion.CanBeUsed, Promotion.customerUsageLimitHit, usagesLookup,
    Promotion.CalculateDiscount, usecaseFinishCalc, usecaseCustomerDiscountPair,
    Customer.GetApplicableDiscount, getApplicableDiscountLoop, ruleMatches,
    usecasePromotionPair, applyMutualExclusion, custBase, artBase, promoC8, promoBase,
    statsBase]

/-- C8 (amended): bundle and free-shipping promotions are matched by the
applicability checks (which never read the promotion type) and their
`CalculateDiscount` returns 0 for every base price and quantity — but such a
promotion can never win the best-promotion selection: any applied promotion
has a strictly positive computed discount. -/
theorem zero_discount_promotion_types_never_win
    (now : Int) (customer : Customer) (article : Article) (quantity : ℚ)
    (promos : List Promotion) (dc : DiscountCalculation) (p : Promotion)
    (hcalc : usecaseCalculateFinalPrice now customer article quantity (Except.ok promos)
        = Except.ok (some dc))
    (hap : dc.AppliedPromotion = some p) :
    (p.PType ≠ "bundle" ∧ p.PType ≠ "free_shipping")
    ∧ (∀ (q : Promotion) (b qt : ℚ),
        q.PType = "bundle" ∨ q.PType = "free_shipping" →
          q.CalculateDiscount b qt = some 0)
    ∧ (∀ (q : Promotion) (a : Article) (t : String),
        Promotion.IsApplicableToArticle { q with PType := t } a
          = q.IsApplicableToArticle a) := by
  have hzero : ∀ (q : Promotion) (b qt : ℚ),
      q.PType = "bundle" ∨ q.PType = "free_shipping" →
        q.CalculateDiscount b qt = some 0 := by
    intro q b qt hq
    unfold Promotion.CalculateDiscount
    rcases hq with h | h <;> rw [h] <;>
      rw [if_neg (by decide), if_neg (by decide), if_neg (by decide)]
  refine ⟨?_, hzero, fun q a t => rfl⟩
  cases hb : usecaseBestPromotion customer article quantity
      (usecaseBasePrice now customer article).2 (none, 0) promos with
  | none =>
      exfalso
      simp only [usecaseCalculateFinalPrice] at hcalc
      rw [hb] at hcalc
      exact absurd hcalc (by simp)
  | some best =>
      have hdc := usecase_ok_some_eq now customer article quantity promos best dc hb hcalc
      have hinv := bestPromotion_inv customer article quantity
        (usecaseBasePrice now customer article).2 promos (none, 0) best hb
        ⟨le_refl 0, by simp⟩
      have hbp : best.1 = some p := by
        rw [hdc] at hap
        simp only [usecaseFinishCalc, applyMutualExclusion, usecasePromotionPair] at hap
        cases hb1 : best.1 with
        | some bp =>
            rw [hb1] at hap
            simp only [] at hap
            split_ifs at hap <;> simp_all
        | none =>
            rw [hb1] at hap
            simp only [] at hap
            split_ifs at hap
      obtain ⟨hpos, hcd⟩ := hinv.2 p hbp
      constructor
      · intro hb8
        have hz := hzero p (usecaseBasePrice now customer article).2 quantity (Or.inl hb8)
        rw [hz] at hcd
        have h0 : (0 : ℚ) = best.2 := Option.some.inj hcd
        exact absurd hpos (by rw [← h0]; exact lt_irrefl 0)
      · intro hb8
        have hz := hzero p (usecaseBasePrice now customer article).2 quantity (Or.inr hb8)
        rw [hz] at hcd
        have h0 : (0 : ℚ) = best.2 := Option.some.inj hcd
        exact absurd hpos (by rw [← h0]; exact lt_irrefl 0)


/-- Witness for C8: the applied promotion in the `promoC1` scenario is a
percent promotion, not a bundle or free-shipping one. -/
theorem zero_discount_promotion_types_never_win_witness :
    promoC1.PType ≠ "bundle" ∧ promoC1.PType ≠ "free_shipping" :=
  (zero_discount_promotion_types_never_win 10 custBase artBase 1 [promoC1] dcPct promoC1
    (by norm_num +decide [usecaseCalculateFinalPrice, usecaseBasePrice, Article.GetNetPrice,
      getNetPriceLoop, usecaseBestPromotion, bestPromotionStep,
      Promotion.IsApplicableToArticle, Promotion.IsApplicableToCustomer,
      Promotion.CanBeUsed, Promotion.customerUsageLimitHit, usagesLookup,
      Promotion.CalculateDiscount, usecaseFinishCalc, usecaseCustomerDiscountPair,
      Customer.GetApplicableDiscount, getApplicableDiscountLoop, ruleMatches,
      usecasePromotionPair, applyMutualExclusion, custBase, artBase, promoC1, promoBase,
      statsBase, dcPct])
    (by rfl)).1

/-- C6 (amended): (1) for every kit with a non-empty component list whose
components all have a strictly positive quantity-per-kit and are present in
the snapshot with positive stock, `CalculateAvailability` returns the minimum
of the per-component ratios `available / quantityPerKit`; (2) if any component
is missing from the snapshot or has available stock of zero or less, the
result is zero; (3) the loop returns without evaluating the components after
such a component (the tail is irrelevant); (4) components A (quantity 2,
available 10) and B (quantity 3, available 9) yield 3.  Excluding negative
quantities in (1) is forced by the counterexample
`negative_component_quantity_breaks_min` (the `-1` sentinel conflates with
negative ratios); a quantity of exactly zero is also excluded because there
Go's float division yields `+Inf`, which the exact rational model does not
represent. -/
theorem calculateAvailability_min_and_shortcircuit :
    (∀ (k : Kit) (articles : List (Nat × Article)),
      k.Components ≠ [] →
      (∀ c ∈ k.Components, compGoodB articles c = true ∧ 0 < c.Quantity) →
      k.CalculateAvailability articles ∈ k.Components.map (compAvail articles) ∧
        ∀ x ∈ k.Components.map (compAvail articles),
          k.CalculateAvailability articles ≤ x)
    ∧ (∀ (k : Kit) (articles : List (Nat × Article)),
        (∃ c ∈ k.Components, compBadB articles c = true) →
        k.CalculateAvailability articles = 0)
    ∧ (∀ (articles : List (Nat × Article)) (c : KitComponent)
        (pre rest rest' : List KitComponent) (seed : ℚ), compBadB articles c = true →
        calculateAvailabilityLoop articles (pre ++ c :: rest) seed
          = calculateAvailabilityLoop articles (pre ++ c :: rest') seed)
    ∧ kitAB.CalculateAvailability snapshotAB = 3 := by
  refine ⟨?_, ?_, ?_, ?_⟩
  · intro k articles hne hgood
    obtain ⟨c0, t, hct⟩ : ∃ c0 t, k.Components = c0 :: t := by
      cases hk : k.Components with
      | nil => exact absurd hk hne
      | cons a b => exact ⟨a, b, rfl⟩
    obtain ⟨hg0, hq0⟩ := hgood c0 (by rw [hct]; exact List.mem_cons_self _ _)
    have ht : ∀ c ∈ t, compGoodB articles c = true ∧ 0 < c.Quantity :=
      fun c hc => hgood c (by rw [hct]; exact List.mem_cons.mpr (Or.inr hc))
    simp only [compGoodB] at hg0
    cases hl : mapLookup articles c0.ArticleID with
    | none => rw [hl] at hg0; simp at hg0
    | some a0 =>
        rw [hl] at hg0
        simp only [decide_eq_true_eq] at hg0
        have hk0 : (0 : ℚ) ≤ a0.Stock.Available / c0.Quantity :=
          div_nonneg (le_of_lt hg0) (le_of_lt hq0)
        have hca : compAvail articles c0 = a0.Stock.Available / c0.Quantity := by
          simp [compAvail, hl]
        have hloop : k.CalculateAvailability articles
            = (t.map (compAvail articles)).foldl min (compAvail articles c0) := by
          simp only [Kit.CalculateAvailability, hct, List.isEmpty_cons,
            Bool.false_eq_true, if_false]
          simp only [calculateAvailabilityLoop, hl, if_neg (not_le.mpr hg0),
            if_pos (Or.inl (by norm_num : (-1 : ℚ) < 0))]
          rw [calcLoop_all_good articles t _ hk0 ht, hca]
        rw [hloop, hct]
        constructor
        · simpa using foldlMin_mem (t.map (compAvail articles)) (compAvail articles c0)
        · intro x hx
          exact foldlMin_le x (t.map (compAvail articles)) (compAvail articles c0)
            (by simpa using hx)
  · intro k articles hbad
    have hne : k.Components ≠ [] := by
      obtain ⟨c, hc, _⟩ := hbad
      intro h
      rw [h] at hc
      simp at hc
    cases hk : k.Components with
    | nil => exact absurd hk hne
    | cons a b =>
        simp only [Kit.CalculateAvailability, hk, List.isEmpty_cons,
          Bool.false_eq_true, if_false]
        exact calcLoop_bad_zero articles (a :: b) (-1) (hk ▸ hbad)
  · intro articles c pre rest rest' seed hc
    exact calcLoop_shortcircuit articles c hc pre rest rest' seed
  · norm_num +decide [Kit.CalculateAvailability, calculateAvailabilityLoop, mapLookup,
      kitAB, snapshotAB, artKA, artKB, artBase]

/-- C6 counterexample to unrestricted minimality: with a component of
quantity-per-kit `-1` (stock 5) and one of quantity 1 (stock 3), the loop's
`-1` sentinel conflates with the genuinely negative ratio `-5`: the function
returns `3`, which is not the minimum of the ratios (it exceeds the member
`-5`). -/
theorem negative_component_quantity_breaks_min :
    kitNeg.CalculateAvailability snapshotNeg = 3
    ∧ compAvail snapshotNeg ⟨21, "N1", -1⟩ = -5
    ∧ (-5 : ℚ) ∈ kitNeg.Components.map (compAvail snapshotNeg)
    ∧ ¬ ((3 : ℚ) ≤ -5) := by
  refine ⟨?_, ?_, ?_, by norm_num⟩
  · norm_num +decide [Kit.CalculateAvailability, calculateAvailabilityLoop, mapLookup,
      kitNeg, snapshotNeg, artN1, artN2, artBase]
  · norm_num +decide [compAvail, mapLookup, snapshotNeg, artN1, artN2, artBase]
  · norm_num +decide [compAvail, mapLookup, kitNeg, snapshotNeg, artN1, artN2, artBase]

/-- Witness for C6: the A/B kit attains the minimum 3; a kit with a missing
component yields 0; and the loop result is unchanged when the components
after the missing one are dropped. -/
theorem calculateAvailability_min_and_shortcircuit_witness :
    (kitAB.CalculateAvailability snapshotAB ∈ kitAB.Components.map (compAvail snapshotAB)
      ∧ ∀ x ∈ kitAB.Components.map (compAvail snapshotAB),
          kitAB.CalculateAvailability snapshotAB ≤ x)
    ∧ kitShort.CalculateAvailability snapshotAB = 0
    ∧ calculateAvailabilityLoop snapshotAB
        ([⟨11, "KA", 2⟩] ++ ⟨99, "KX", 1⟩ :: [⟨12, "KB", 3⟩]) (-1)
      = calculateAvailabilityLoop snapshotAB ([⟨11, "KA", 2⟩] ++ ⟨99, "KX", 1⟩ :: []) (-1) := by
  refine ⟨calculateAvailability_min_and_shortcircuit.1 kitAB snapshotAB
      (by norm_num +decide [kitAB]) ?_,
    calculateAvailability_min_and_shortcircuit.2.1 kitShort snapshotAB
      ⟨⟨99, "KX", 1⟩, by norm_num +decide [kitShort],
        by norm_num +decide [compBadB, mapLookup, snapshotAB]⟩,
    calculateAvailability_min_and_shortcircuit.2.2.1 snapshotAB ⟨99, "KX", 1⟩
      [⟨11, "KA", 2⟩] [⟨12, "KB", 3⟩] [] (-1)
      (by norm_num +decide [compBadB, mapLookup, snapshotAB])⟩
  intro c hc
  simp only [kitAB, List.mem_cons, List.not_mem_nil, or_false] at hc
  rcases hc with rfl | rfl
  · exact ⟨by norm_num +decide [compGoodB, mapLookup, snapshotAB, artKA, artBase],
      by norm_num⟩
  · exact ⟨by norm_num +decide [compGoodB, mapLookup, snapshotAB, artKB, artKA, artBase],
      by norm_num⟩

/-- C7: `CanFulfill` returns true exactly when the shortage list is empty,
and the shortage list contains one entry for every short component (not only
the first): a component absent from the snapshot contributes
`"<code> (not found)"` and an under-stocked one contributes
`"<code> (need X, have Y)"` with X the required and Y the available quantity
(rendered by the source's `formatFloat`); concretely, a kit with one missing
and one under-stocked component lists both shortages. -/
theorem canFulfill_shortages_complete (k : Kit) (quantity : ℚ)
    (articles : List (Nat × Article)) :
    ((k.CanFulfill quantity articles).1 = true ↔ (k.CanFulfill quantity articles).2 = [])
    ∧ (k.CanFulfill quantity articles).2
        = k.Components.filterMap (shortageSpecEntry quantity articles)
    ∧ (kitShort.CanFulfill 4 snapshotAB).1 = false
    ∧ (kitShort.CanFulfill 4 snapshotAB).2.length = 2 := by
  refine ⟨?_, ?_, ?_, ?_⟩
  · simp [Kit.CanFulfill, List.isEmpty_iff]
  · simp [Kit.CanFulfill, canFulfillLoop_filterMap]
  · norm_num +decide [Kit.CanFulfill, canFulfillLoop, mapLookup, formatFloat, ratTrunc,
      goRuneString, kitShort, snapshotAB, artKA, artKB, artBase]
  · norm_num +decide [Kit.CanFulfill, canFulfillLoop, mapLookup, formatFloat, ratTrunc,
      goRuneString, kitShort, snapshotAB, artKA, artKB, artBase]

/-- C9: the pricing computation is pure over its snapshots — the post-state of
the customer, the article and the promotion list equals the input (the Go body
writes only to the local `calc`); promotion usage statistics change only via
`RecordUsage`, which strictly increases `TotalUsages`, `UsagesToday` and the
caller's `CustomerUsages` entry (each by exactly one); and `ResetDailyUsage`
zeroes `UsagesToday` while leaving `TotalUsages` and `CustomerUsages`
unchanged. -/
theorem pricing_is_pure_and_usage_counters_monotone (now now2 : Int)
    (customer : Customer) (article : Article) (quantity : ℚ)
    (promosResult : Except String (List Promotion)) (p : Promotion)
    (customerID : Nat) (revenue discount : ℚ) :
    (usecaseCalculateFinalPriceWithState now customer article quantity promosResult).2
      = (customer, article, promosResult)
    ∧ (p.RecordUsage now2 customerID revenue discount).Statistics.TotalUsages
        = p.Statistics.TotalUsages + 1
    ∧ (p.RecordUsage now2 customerID revenue discount).Statistics.UsagesToday
        = p.Statistics.UsagesToday + 1
    ∧ usagesLookupD (p.RecordUsage now2 customerID revenue
          discount).Statistics.CustomerUsages customerID
        = usagesLookupD p.Statistics.CustomerUsages customerID + 1
    ∧ p.Statistics.TotalUsages
        < (p.RecordUsage now2 customerID revenue discount).Statistics.TotalUsages
    ∧ p.Statistics.UsagesToday
        < (p.RecordUsage now2 customerID revenue discount).Statistics.UsagesToday
    ∧ usagesLookupD p.Statistics.CustomerUsages customerID
        < usagesLookupD (p.RecordUsage now2 customerID revenue
            discount).Statistics.CustomerUsages customerID
    ∧ (p.ResetDailyUsage now2).Statistics.UsagesToday = 0
    ∧ (p.ResetDailyUsage now2).Statistics.TotalUsages = p.Statistics.TotalUsages
    ∧ (p.ResetDailyUsage now2).Statistics.CustomerUsages
        = p.Statistics.CustomerUsages := by
  refine ⟨rfl, rfl, rfl, usagesIncr_lookupD customerID p.Statistics.CustomerUsages,
    by simp [Promotion.RecordUsage], by simp [Promotion.RecordUsage], ?_, rfl, rfl, rfl⟩
  rw [show (p.RecordUsage now2 customerID revenue discount).Statistics.CustomerUsages
      = usagesIncr p.Statistics.CustomerUsages customerID from rfl,
    usagesIncr_lookupD customerID p.Statistics.CustomerUsages]
  exact lt_add_one _
